import Mathlib

/-!
Verification of the filament-usage accounting engine in
`moonraker/components/spool_manager.py`.

The Python module is shallowly embedded below.  Python `float` values are
modelled as exact rationals (`ℚ`); dictionaries are association lists that
preserve insertion order, as CPython dicts do; Python exceptions are modelled
with an explicit `Except` error monad.  Definitions keep the source's names
where Lean allows it.
-/

set_option maxHeartbeats 1000000

/-- A Python value as it appears in the spool dictionaries:
`None`, a string, a number (int/float, modelled exactly as a rational),
or a boolean. -/
inductive PyVal where
  | none
  | str (s : String)
  | num (q : ℚ)
  | bool (b : Bool)
deriving DecidableEq, Repr

/-- The Python exceptions that the embedded code can raise.
`serverError` models a `self.server.error(...)` raise (moonraker's
`ServerError`, surfaced as a client-error response); the remaining
constructors model uncontrolled interpreter exceptions, plus an I/O
failure of the external key-value store. -/
inductive PyErr where
  | serverError (msg : String)
  | keyError (k : String)
  | attributeError
  | indexError
  | storeIOError
deriving DecidableEq, Repr

/-- A serialized spool record: a Python dict in insertion order. -/
abbrev SerRec := List (String × PyVal)

/-- Python `d.get(k)` / `d[k]`-style lookup on an ordered association list. -/
def dget {α : Type} : List (String × α) → String → Option α
  | [], _ => Option.none
  | (k', v) :: rest, k => if k = k' then some v else dget rest k

/-- Python `d[k] = v`: replace the value in place if the key exists
(keeping its position, as CPython dicts do), else append the new entry. -/
def dset {α : Type} : List (String × α) → String → α → List (String × α)
  | [], k, v => [(k, v)]
  | (k', v') :: rest, k, v =>
      if k = k' then (k, v) :: rest else (k', v') :: dset rest k v

/-- Python truthiness of a `PyVal` (`if x:`): `None`, `0`, `""` and `False`
are falsy, everything else is truthy. -/
def truthyPy : PyVal → Bool
  | .none => false
  | .str s => if s = "" then false else true
  | .num q => if q = 0 then false else true
  | .bool b => b

/-- Python truthiness of an optional float attribute (`None` and `0.0`
are falsy). -/
def truthyOptQ : Option ℚ → Bool
  | Option.none => false
  | some q => if q = 0 then false else true

/-- The exact rational value of the IEEE-754 double `math.pi`
(3.141592653589793...). -/
def mathPi : ℚ := 884279719003555 / 281474976710656

/-- The `Spool` entity of `spool_manager.py`.  The thirteen data attributes
are exactly those set in `Spool.__init__`, in the order they are assigned
(hence the order of `self.__dict__`).  `shadows` models instance-dictionary
entries created when `update` is handed a key that names a *non-field*
attribute of the object (a method such as `update`, the class attribute
`_required_attributes`, or a Python built-in object attribute): `hasattr`
is true for those names, so `setattr` stores the value in the instance
dictionary, shadowing the class attribute. -/
structure Spool where
  name : Option String
  color : Option String
  vendor : Option String
  material : Option String
  density : Option ℚ
  diameter : Option ℚ
  total_weight : Option ℚ
  used_length : ℚ
  spool_weight : Option ℚ
  first_used : Option ℚ
  last_used : Option ℚ
  cost : Option ℚ
  comment : Option String
  shadows : List (String × PyVal)
deriving DecidableEq, Repr

/-- The names of the thirteen data attributes, in `__init__` order. -/
def spoolDataFields : List String :=
  ["name", "color", "vendor", "material", "density", "diameter",
   "total_weight", "used_length", "spool_weight", "first_used",
   "last_used", "cost", "comment"]

/-- Non-field attribute names of a `Spool` object: its methods and the
class attribute inherited from `Validation`.  `isDunder` below
over-approximates the built-in `object` attributes (`__class__`,
`__dict__`, ...). -/
def spoolClassAttrs : List String :=
  ["update", "used_weight", "serialize", "validate", "_required_attributes"]

/-- Over-approximation of Python's built-in dunder attribute names
(names starting with a double underscore). -/
def isDunder (k : String) : Bool :=
  match k.data with
  | '_' :: '_' :: _ => true
  | _ => false

/-- Model of `hasattr(spool, k)`. -/
def hasattrSpool (k : String) : Bool :=
  spoolDataFields.contains k || spoolClassAttrs.contains k || isDunder k

/-- Reading a string-typed attribute out of a `PyVal` assignment.
(Assigning a non-`None`, non-string value to a string attribute is not
exercised by any code path modelled here.) -/
def asOptStr : PyVal → Option String
  | .str s => some s
  | _ => Option.none

/-- Reading a float-typed attribute out of a `PyVal` assignment; Python
booleans are numeric (`True == 1`, `False == 0`). -/
def asOptQ : PyVal → Option ℚ
  | .num q => some q
  | .bool b => some (if b then 1 else 0)
  | _ => Option.none

/-- Reading the non-optional `used_length` attribute out of a `PyVal`
assignment.  (A `None` or string value here would poison later arithmetic
in the Python source with a `TypeError`; that path is not exercised.) -/
def asQ (v : PyVal) : ℚ := (asOptQ v).getD 0

/-- `setattr(self, k, v)` guarded by `hasattr(self, k)`, i.e. one step of
`Spool.update`'s loop body. -/
def setAttr (s : Spool) (k : String) (v : PyVal) : Spool :=
  if k = "name" then { s with name := asOptStr v }
  else if k = "color" then { s with color := asOptStr v }
  else if k = "vendor" then { s with vendor := asOptStr v }
  else if k = "material" then { s with material := asOptStr v }
  else if k = "density" then { s with density := asOptQ v }
  else if k = "diameter" then { s with diameter := asOptQ v }
  else if k = "total_weight" then { s with total_weight := asOptQ v }
  else if k = "used_length" then { s with used_length := asQ v }
  else if k = "spool_weight" then { s with spool_weight := asOptQ v }
  else if k = "first_used" then { s with first_used := asOptQ v }
  else if k = "last_used" then { s with last_used := asOptQ v }
  else if k = "cost" then { s with cost := asOptQ v }
  else if k = "comment" then { s with comment := asOptStr v }
  else if spoolClassAttrs.contains k || isDunder k then
    { s with shadows := dset s.shadows k v }
  else s

/-- `Spool.update(data)`: for each key of the mapping, in order,
`if hasattr(self, a): setattr(self, a, data[a])`. -/
def Spool.update (s : Spool) (data : List (String × PyVal)) : Spool :=
  data.foldl (fun s kv => setAttr s kv.1 kv.2) s

/-- The attribute values established by `Spool.__init__` before the
`update(data)` call. -/
def spoolDefault : Spool :=
  { name := Option.none, color := Option.none, vendor := Option.none,
    material := Option.none, density := Option.none, diameter := Option.none,
    total_weight := Option.none, used_length := 0,
    spool_weight := Option.none, first_used := Option.none,
    last_used := Option.none, cost := Option.none, comment := Option.none,
    shadows := [] }

/-- `Spool(data)`: default-initialize, then `update(data)`. -/
def spoolFromData (data : SerRec) : Spool := Spool.update spoolDefault data

/-- `self.__getattribute__(k)` for the thirteen data attributes, as the
`PyVal` it holds. -/
def fieldGet (s : Spool) (k : String) : PyVal :=
  if k = "name" then (s.name.map PyVal.str).getD PyVal.none
  else if k = "color" then (s.color.map PyVal.str).getD PyVal.none
  else if k = "vendor" then (s.vendor.map PyVal.str).getD PyVal.none
  else if k = "material" then (s.material.map PyVal.str).getD PyVal.none
  else if k = "density" then (s.density.map PyVal.num).getD PyVal.none
  else if k = "diameter" then (s.diameter.map PyVal.num).getD PyVal.none
  else if k = "total_weight" then (s.total_weight.map PyVal.num).getD PyVal.none
  else if k = "used_length" then PyVal.num s.used_length
  else if k = "spool_weight" then (s.spool_weight.map PyVal.num).getD PyVal.none
  else if k = "first_used" then (s.first_used.map PyVal.num).getD PyVal.none
  else if k = "last_used" then (s.last_used.map PyVal.num).getD PyVal.none
  else if k = "cost" then (s.cost.map PyVal.num).getD PyVal.none
  else if k = "comment" then (s.comment.map PyVal.str).getD PyVal.none
  else PyVal.none

/-- The required attributes of `Spool` (`_required_attributes`). -/
def required_attributes : List String :=
  ["name", "diameter", "total_weight", "material"]

/-- `Validation.validate()`: the required attributes whose current value is
`None`.  (The Python source returns them as a `set`; only emptiness of the
result is consumed, so a list is an adequate model.) -/
def Spool.validate (s : Spool) : List String :=
  required_attributes.filter (fun f => decide (fieldGet s f = PyVal.none))

/-- `Spool.used_weight()`: `math.pi * r * r * used_length * density_mm`
guarded by the truthiness of `diameter` and `density` (`None` and `0.0`
both skip the computation, leaving `0.0`). -/
def Spool.used_weight (s : Spool) : ℚ :=
  match s.diameter, s.density with
  | some d, some dens =>
      if d ≠ 0 ∧ dens ≠ 0 then
        mathPi * (d / 2) * (d / 2) * s.used_length * (dens / 1000)
      else 0
  | _, _ => 0

/-- `Spool.serialize()` (with `include_calculated=False`):
`self.__dict__.copy()` — the thirteen data attributes in `__init__` order,
followed by any shadowing instance-dictionary entries. -/
def Spool.serialize (s : Spool) : SerRec :=
  [("name", (s.name.map PyVal.str).getD PyVal.none),
   ("color", (s.color.map PyVal.str).getD PyVal.none),
   ("vendor", (s.vendor.map PyVal.str).getD PyVal.none),
   ("material", (s.material.map PyVal.str).getD PyVal.none),
   ("density", (s.density.map PyVal.num).getD PyVal.none),
   ("diameter", (s.diameter.map PyVal.num).getD PyVal.none),
   ("total_weight", (s.total_weight.map PyVal.num).getD PyVal.none),
   ("used_length", PyVal.num s.used_length),
   ("spool_weight", (s.spool_weight.map PyVal.num).getD PyVal.none),
   ("first_used", (s.first_used.map PyVal.num).getD PyVal.none),
   ("last_used", (s.last_used.map PyVal.num).getD PyVal.none),
   ("cost", (s.cost.map PyVal.num).getD PyVal.none),
   ("comment", (s.comment.map PyVal.str).getD PyVal.none)]
  ++ s.shadows

/-- `Spool.serialize(include_calculated=True)`: the serialized dict with
`data.update({'used_weight': self.used_weight()})` applied. -/
def Spool.serialize_calculated (s : Spool) : SerRec :=
  dset s.serialize "used_weight" (PyVal.num s.used_weight)

example : spoolFromData [("name", PyVal.str "A")] =
    { spoolDefault with name := some "A" } := by decide

example : (spoolFromData [("name", PyVal.str "A")]).validate =
    ["diameter", "total_weight", "material"] := by decide

def spoolEx : Spool :=
  { spoolDefault with diameter := some 2, density := some 1, used_length := 10 }

example : spoolEx.used_weight = mathPi * 10 / 1000 := by
  norm_num [Spool.used_weight, spoolEx, spoolDefault, mathPi]

/-! ### Spool id assignment (`add_spool`, lines 148–152) -/

/-- Value of one hexadecimal digit, as `int(s, 16)` reads it.  (Keys in the
spool namespace are only ever the ids produced by `add_spool`, which are
plain uppercase hex; other characters would make `int(s, 16)` raise.) -/
def hexDigitVal (c : Char) : ℕ :=
  if '0' ≤ c ∧ c ≤ '9' then c.toNat - '0'.toNat
  else if 'A' ≤ c ∧ c ≤ 'F' then c.toNat - 'A'.toNat + 10
  else if 'a' ≤ c ∧ c ≤ 'f' then c.toNat - 'a'.toNat + 10
  else 0

/-- `int(s, 16)` on a plain hex string. -/
def hexVal (s : String) : ℕ :=
  s.data.foldl (fun a c => 16 * a + hexDigitVal c) 0

/-- The uppercase hexadecimal digit of a value below 16. -/
def toHexDigit (n : ℕ) : Char :=
  if n < 10 then Char.ofNat ('0'.toNat + n) else Char.ofNat ('A'.toNat + n - 10)

/-- Digit list of `n` in uppercase hex, most significant first; empty for 0.
Fuel-based so that it reduces definitionally (`fuel ≥ n` suffices). -/
def toHexDigits : ℕ → ℕ → List Char
  | 0, _ => []
  | fuel + 1, n =>
      if n = 0 then [] else toHexDigits fuel (n / 16) ++ [toHexDigit (n % 16)]

/-- Left-pad with `'0'` to width `w` (`str.zfill` behaviour of the format
spec `06X`): a no-op when the string is already at least `w` long. -/
def zfill (w : ℕ) (s : List Char) : List Char :=
  List.replicate (w - s.length) '0' ++ s

/-- `f"{n:06X}"`: uppercase hex, zero-padded to width 6. -/
def formatId (n : ℕ) : String :=
  ⟨zfill 6 (if n = 0 then ['0'] else toHexDigits n n)⟩

/-- The spool namespace: 6-hex-digit ids mapping to serialized records. -/
abbrev DB := List (String × SerRec)

/-- The id computation of `add_spool`: 0 on an empty key list, otherwise
`int(spools[-1], 16) + 1` on the key list returned by the store. -/
def next_spool_id (keys : List String) : ℕ :=
  match keys.getLast? with
  | some k => hexVal k + 1
  | Option.none => 0

/-- The id string assigned by `add_spool` given the store's key list. -/
def assignId (keys : List String) : String := formatId (next_spool_id keys)

example : assignId [] = "000000" := by decide
example : assignId ["000000"] = "000001" := by decide
example : formatId (hexVal "FFFFFF" + 1) = "1000000" := by decide

/-! ### Usage accumulator (`SpoolManagerHandler`, lines 238–293) -/

/-- The mutable telemetry state of `SpoolManagerHandler`:
`highest_e_pos` and `extruded`. -/
structure Accumulator where
  highest_e_pos : ℚ
  extruded : ℚ
deriving DecidableEq, Repr

/-- The accumulator after `__init__` (both fields `0.0`) followed by
`_handle_server_ready` establishing the initial extruder position. -/
def initAccumulator (initial_e_pos : ℚ) : Accumulator :=
  { highest_e_pos := initial_e_pos, extruded := 0 }

/-- `_eposition_from_status`, taking the already-extracted toolhead
position vector (`status.get('toolhead', {}).get('position', [])`; an
absent vector arrives as `[]`).  The source reads `position[3]` whenever
`len(position) > 0`, so a vector of length 1–3 raises `IndexError`. -/
def eposition_from_status (position : List ℚ) : Except PyErr (Option ℚ) :=
  if 0 < position.length then
    match position.get? 3 with
    | some e => .ok (some e)
    | Option.none => .error .indexError
  else .ok Option.none

/-- The body of `_handle_status_update` after the position has been
extracted: `if epos and epos > self.highest_e_pos`, where `epos` is falsy
both when `None` and when exactly `0.0`. -/
def onSample (acc : Accumulator) (epos : Option ℚ) : Accumulator :=
  match epos with
  | some e =>
      if e ≠ 0 ∧ acc.highest_e_pos < e then
        { highest_e_pos := e, extruded := acc.extruded + (e - acc.highest_e_pos) }
      else acc
  | Option.none => acc

/-- `_handle_status_update` on one status event. -/
def handle_status_update (acc : Accumulator) (position : List ℚ) :
    Except PyErr Accumulator :=
  (eposition_from_status position).map (onSample acc)

example : onSample (initAccumulator 0) (some 10) = ⟨10, 10⟩ := by
  norm_num [onSample, initAccumulator]
example : onSample ⟨10, 10⟩ (some 4) = ⟨10, 10⟩ := by
  norm_num [onSample]
example : handle_status_update ⟨0, 0⟩ [1] = .error .indexError := rfl

/-! ### Spool registry (`SpoolManager`) -/

/-- A pub/sub notification (`self.server.send_event(name, payload)`). -/
structure Event where
  name : String
  payload : List (String × PyVal)
deriving DecidableEq, Repr

/-- The state touched by the registry: the spool namespace, the active
spool pointer (namespace B), the handler's accumulator, and the trace of
emitted notifications. -/
structure MState where
  db : DB
  active : Option String
  acc : Accumulator
  events : List Event
deriving DecidableEq, Repr

/-- `find_spool`: fetch and reconstruct (`Spool(spool)` when the stored
dict is truthy — serialized records always carry thirteen keys, so a found
record is never falsy). -/
def find_spool (db : DB) (spool_id : String) : Option Spool :=
  (dget db spool_id).map spoolFromData

/-- `update_spool(spool_id, data)`: no-op when `spool_id` is not stored;
otherwise merge, re-validate (raising the `Missing spool attributes`
server error on failure), and write through to the store.  `writeOk`
models the external store accepting or rejecting the write
(`self.db[spool_id] = spool.serialize()`); a rejected write raises. -/
def update_spool (writeOk : Bool) (db : DB) (spool_id : String)
    (data : SerRec) : Except PyErr Unit × DB :=
  match find_spool db spool_id with
  | Option.none => (.ok (), db)
  | some spool =>
      let spool := spool.update data
      if spool.validate ≠ [] then
        (.error (.serverError "Missing spool attributes"), db)
      else if writeOk then (.ok (), dset db spool_id spool.serialize)
      else (.error .storeIOError, db)

/-- `MAX_SPOOLS`. -/
def MAX_SPOOLS : ℕ := 1000

/-- Lines 135–141 of `add_spool`: when `data.get('density')` is falsy,
evaluate `self.materials.get(data.get('material')).get('density') if
data.get('material') else None` and require the result truthy.  When the
material name is truthy but absent from the table (or not a string key),
`self.materials.get(...)` is `None` and the chained `.get` raises
`AttributeError`. -/
def resolve_density (materials : List (String × SerRec)) (data : SerRec) :
    Except PyErr SerRec :=
  if truthyPy ((dget data "density").getD PyVal.none) then .ok data
  else
    match
      (if truthyPy ((dget data "material").getD PyVal.none) then
        match (dget data "material").getD PyVal.none with
        | .str m =>
            match dget materials m with
            | some entry => .ok ((dget entry "density").getD PyVal.none)
            | Option.none => .error PyErr.attributeError
        | _ => .error PyErr.attributeError
      else .ok PyVal.none : Except PyErr PyVal) with
    | .error e => .error e
    | .ok density =>
        if truthyPy density then .ok (dset data "density" density)
        else
          .error (.serverError
            "Density not provided and none found for material")

/-- `add_spool(data)`: capacity check, density default, construction,
validation, id assignment, persist. -/
def add_spool (materials : List (String × SerRec)) (db : DB)
    (data : SerRec) : Except PyErr (String × DB) :=
  if MAX_SPOOLS ≤ db.length then
    .error (.serverError "Reached maximum number of spools: 1000")
  else
    match resolve_density materials data with
    | .error e => .error e
    | .ok data =>
        let spool := spoolFromData data
        if spool.validate ≠ [] then
          .error (.serverError "Missing spool attributes")
        else
          let spool_id := assignId (db.map Prod.fst)
          .ok (spool_id, dset db spool_id spool.serialize)

/-- `find_all_spools(show_inactive)`: the dict comprehension filters on
`show_inactive is True or v['active'] is True`.  The `or` short-circuits,
so with `show_inactive=True` the `'active'` key is never read; otherwise a
record without an `'active'` key raises `KeyError`. -/
def find_all_spools (db : DB) (show_inactive : Bool) : Except PyErr DB :=
  match db with
  | [] => .ok []
  | (k, v) :: rest => do
      let keep ←
        if show_inactive then pure true
        else match dget v "active" with
          | some pv => pure (decide (pv = PyVal.bool true))
          | Option.none => throw (PyErr.keyError "active")
      let tail ← find_all_spools rest show_inactive
      if keep then
        return (k, (spoolFromData v).serialize_calculated) :: tail
      else
        return tail

/-- Lines 196–206 of `track_filament_usage`: `used_weight` — the change
of the derived weight caused by adding the drained length to
`used_length` (`new_used_weight - old_used_weight`). -/
def usedWeightDelta (sp : Spool) (L : ℚ) : ℚ :=
  Spool.used_weight { sp with used_length := sp.used_length + L }
    - sp.used_weight

/-- Lines 208–210 of `track_filament_usage`: `used_cost` — guarded by the
truthiness of `spool.cost`, of the weight delta itself, and of
`spool.total_weight`. -/
def codeCost (sp : Spool) (L : ℚ) : ℚ :=
  if truthyOptQ sp.cost = true ∧ usedWeightDelta sp L ≠ 0 ∧
      truthyOptQ sp.total_weight = true then
    usedWeightDelta sp L / sp.total_weight.getD 0 * sp.cost.getD 0
  else 0

/-- Lines 201–215 of `track_filament_usage`: the in-memory `spool` object
after the attribute mutations — `used_length += drained`, `first_used set
only when previously falsy` (`if not spool.first_used`), `last_used
always set`. -/
def codeAccounted (sp : Spool) (L now : ℚ) : Spool :=
  { sp with used_length := sp.used_length + L,
            first_used := if truthyOptQ sp.first_used = true then sp.first_used
                          else some now,
            last_used := some now }

/-- Lines 219–223: the `filament_used` notification payload. -/
def filamentUsedEvent (sid : String) (dW dCost : ℚ) : Event :=
  { name := "spool_manager:filament_used",
    payload := [("spool_id", PyVal.str sid), ("used_weight", PyVal.num dW),
                ("cost", PyVal.num dCost)] }

/-- `track_filament_usage` (lines 188–235), the accounting transaction.
`now` models the value returned by `time.time()`; `writeOk` models the
outcome of the persistence write inside the nested `update_spool` call.
The result is the raised-or-returned outcome together with the state at
that point: on an exception the mutations already performed persist, and
in particular `self.handler.extruded = 0` (line 225) runs only after
`update_spool` has returned and the notification has been sent. -/
def track_filament_usage (now : ℚ) (writeOk : Bool) (st : MState) :
    Except PyErr Unit × MState :=
  let spool? := st.active.bind (find_spool st.db)
  if 0 < st.acc.extruded then
    match st.active, spool? with
    | some spool_id, some spool =>
        let used_length := st.acc.extruded
        match update_spool writeOk st.db spool_id
            (codeAccounted spool used_length now).serialize with
        | (.error e, db') => (.error e, { st with db := db' })
        | (.ok _, db') =>
            let ev := filamentUsedEvent spool_id
              (usedWeightDelta spool used_length) (codeCost spool used_length)
            (.ok (),
             { st with db := db', events := st.events ++ [ev],
                       acc := { st.acc with extruded := 0 } })
    | _, _ => (.ok (), st)
  else (.ok (), st)

/-! ### Support lemmas -/

@[simp] theorem asOptStr_getD (o : Option String) :
    asOptStr ((o.map PyVal.str).getD PyVal.none) = o := by cases o <;> rfl

@[simp] theorem asOptQ_getD (o : Option ℚ) :
    asOptQ ((o.map PyVal.num).getD PyVal.none) = o := by cases o <;> rfl

@[simp] theorem asQ_num (q : ℚ) : asQ (PyVal.num q) = q := rfl

/-- `d[k]` after `d[k] = v` finds `v`. -/
theorem dget_dset_self {α : Type} (d : List (String × α)) (k : String) (v : α) :
    dget (dset d k v) k = some v := by
  induction d with
  | nil => simp [dget, dset]
  | cons hd tl ih =>
      obtain ⟨k', v'⟩ := hd
      by_cases h : k = k' <;> simp [dget, dset, h, ih]

/-- Merging a full thirteen-key serialized record into any spool replaces
every data attribute (instance-dictionary shadows of the receiving object
are untouched because a serialized shadow-free record mentions only the
thirteen field keys). -/
theorem update_serialize (s sp : Spool) (h : sp.shadows = []) :
    Spool.update s sp.serialize = { sp with shadows := s.shadows } := by
  simp only [Spool.serialize, h, List.append_nil, Spool.update,
    List.foldl_cons, List.foldl_nil, setAttr, String.reduceEq, reduceIte,
    asOptStr_getD, asOptQ_getD, asQ_num]

/-- `Spool(spool.serialize())` reconstructs the spool exactly. -/
theorem spoolFromData_serialize (sp : Spool) (h : sp.shadows = []) :
    spoolFromData sp.serialize = sp := by
  rw [spoolFromData, update_serialize _ _ h]
  cases sp
  simp_all [spoolDefault]

/-- `validate` only reads the four required attributes, none of which the
accounting transaction touches. -/
theorem validate_accounting_frame (sp : Spool) (u : ℚ) (f l : Option ℚ) :
    Spool.validate { sp with used_length := u, first_used := f, last_used := l }
      = Spool.validate sp := rfl

/-! ### Hexadecimal id lemmas -/

/-- Uppercase hexadecimal digit characters. -/
def isHexUpperChar (c : Char) : Bool :=
  decide (('0' ≤ c ∧ c ≤ '9') ∨ ('A' ≤ c ∧ c ≤ 'F'))

theorem hexDigitVal_toHexDigit (m : ℕ) (h : m < 16) :
    hexDigitVal (toHexDigit m) = m := by
  have key : ∀ m' < 16, hexDigitVal (toHexDigit m') = m' := by decide
  exact key m h

theorem toHexDigit_isHex (m : ℕ) (h : m < 16) :
    isHexUpperChar (toHexDigit m) = true := by
  have key : ∀ m' < 16, isHexUpperChar (toHexDigit m') = true := by decide
  exact key m h

theorem toHexDigits_mem_hex (fuel n : ℕ) :
    ∀ c ∈ toHexDigits fuel n, isHexUpperChar c = true := by
  induction fuel generalizing n with
  | zero => simp [toHexDigits]
  | succ fuel ih =>
      intro c hc
      rw [toHexDigits] at hc
      split at hc
      · simp at hc
      · rcases List.mem_append.mp hc with h | h
        · exact ih _ c h
        · simp only [List.mem_singleton] at h
          subst h
          exact toHexDigit_isHex _ (Nat.mod_lt _ (by norm_num))

theorem toHexDigits_length_le (fuel n k : ℕ) (h : n < 16 ^ k) :
    (toHexDigits fuel n).length ≤ k := by
  induction fuel generalizing n k with
  | zero => simp [toHexDigits]
  | succ fuel ih =>
      rw [toHexDigits]
      split
      · simp
      · rename_i hn
        cases k with
        | zero => simp at h; omega
        | succ k =>
            have hdiv : n / 16 < 16 ^ k := by
              rw [Nat.div_lt_iff_lt_mul (by norm_num)]
              calc n < 16 ^ (k + 1) := h
                _ = 16 ^ k * 16 := by ring
            have := ih (n / 16) k hdiv
            simp only [List.length_append, List.length_singleton]
            omega

theorem foldl_hex_toHexDigits (fuel : ℕ) :
    ∀ n a : ℕ, n ≤ fuel →
      List.foldl (fun acc c => 16 * acc + hexDigitVal c) a (toHexDigits fuel n)
        = a * 16 ^ (toHexDigits fuel n).length + n := by
  induction fuel with
  | zero =>
      intro n a h
      interval_cases n
      simp [toHexDigits]
  | succ fuel ih =>
      intro n a h
      rw [toHexDigits]
      split
      · rename_i hn; subst hn; simp
      · rename_i hn
        have hdiv : n / 16 ≤ fuel := by
          have h1 : n / 16 < n := Nat.div_lt_self (Nat.pos_of_ne_zero hn) (by norm_num)
          omega
        rw [List.foldl_append]
        simp only [List.foldl_cons, List.foldl_nil]
        rw [ih (n / 16) a hdiv]
        rw [hexDigitVal_toHexDigit (n % 16) (Nat.mod_lt _ (by norm_num))]
        rw [List.length_append, List.length_singleton]
        have h1 : 16 * (a * 16 ^ (toHexDigits fuel (n / 16)).length + n / 16) + n % 16
            = a * 16 ^ ((toHexDigits fuel (n / 16)).length + 1)
              + (16 * (n / 16) + n % 16) := by ring
        rw [h1, Nat.div_add_mod]

/-- `int(f"{n:06X}", 16) == n`: the id format round-trips through parsing. -/
theorem hexVal_formatId (n : ℕ) : hexVal (formatId n) = n := by
  have hz : ∀ k a, a = 0 →
      List.foldl (fun a c => 16 * a + hexDigitVal c) a (List.replicate k '0') = 0 := by
    intro k
    induction k with
    | zero => intro a ha; simpa using ha
    | succ k ih =>
        intro a ha
        subst ha
        rw [List.replicate_succ, List.foldl_cons]
        exact ih _ (by decide)
  show List.foldl _ 0 (zfill 6 _) = n
  rw [zfill, List.foldl_append, hz _ 0 rfl]
  by_cases hn : n = 0
  · subst hn
    decide
  · simp only [hn, if_false]
    have := foldl_hex_toHexDigits n n 0 le_rfl
    simpa using this

/-- For values below `16^6` the formatted id is exactly six characters. -/
theorem formatId_length (n : ℕ) (h : n < 16 ^ 6) : (formatId n).length = 6 := by
  have hle : (if n = 0 then ['0'] else toHexDigits n n).length ≤ 6 := by
    split
    · simp
    · exact toHexDigits_length_le n n 6 h
  show (zfill 6 _).length = 6
  rw [zfill]
  simp only [List.length_append, List.length_replicate]
  omega

/-- Every character of a formatted id is an uppercase hex digit. -/
theorem formatId_chars (n : ℕ) : (formatId n).data.all isHexUpperChar = true := by
  rw [List.all_eq_true]
  intro c hc
  show isHexUpperChar c = true
  have hc' : c ∈ zfill 6 (if n = 0 then ['0'] else toHexDigits n n) := hc
  rw [zfill] at hc'
  rcases List.mem_append.mp hc' with h | h
  · have := List.eq_of_mem_replicate h
    subst this
    decide
  · split at h
    · simp only [List.mem_singleton] at h
      subst h
      decide
    · exact toHexDigits_mem_hex n n c h

/-! ### Accumulator lemmas -/

/-- Single-sample bookkeeping: one step adds exactly the increase of
`highest_e_pos` to `extruded`, and `highest_e_pos` never decreases. -/
theorem onSample_step (acc : Accumulator) (s : Option ℚ) :
    (onSample acc s).extruded
        = acc.extruded + ((onSample acc s).highest_e_pos - acc.highest_e_pos) ∧
    acc.highest_e_pos ≤ (onSample acc s).highest_e_pos := by
  cases s with
  | none => exact ⟨by simp [onSample], le_refl _⟩
  | some e =>
      rw [onSample]
      split
      · rename_i h
        exact ⟨rfl, le_of_lt h.2⟩
      · exact ⟨by simp, le_refl _⟩

/-- Over any sample sequence, the increase of `extruded` telescopes to the
increase of the running maximum. -/
theorem foldl_onSample_telescopes (samples : List (Option ℚ)) :
    ∀ acc : Accumulator,
      (List.foldl onSample acc samples).extruded
        = acc.extruded
          + ((List.foldl onSample acc samples).highest_e_pos - acc.highest_e_pos) ∧
      acc.highest_e_pos ≤ (List.foldl onSample acc samples).highest_e_pos := by
  induction samples with
  | nil => intro acc; exact ⟨by simp, le_refl _⟩
  | cons s rest ih =>
      intro acc
      rw [List.foldl_cons]
      obtain ⟨ih1, ih2⟩ := ih (onSample acc s)
      obtain ⟨st1, st2⟩ := onSample_step acc s
      refine ⟨?_, le_trans st2 ih2⟩
      rw [ih1, st1]
      ring

/-! ### Claim C2 -/

/-- C2 (amended): after initialization, `extruded` equals the sum of the
positive deltas between consecutive new maxima of `highest_e_pos`
(equivalently, it telescopes to the total increase of the running
maximum, which never decreases); per sample: a present, *nonzero*
position strictly above `highest_e_pos` adds the delta and becomes the
new maximum, a position at or below `highest_e_pos` changes nothing, and
an absent position changes nothing.  (As stated, the claim fails for a
present position of exactly `0.0` above a negative maximum, because the
source guards with the truthiness test `if epos and ...`.) -/
theorem extruded_sums_positive_deltas (acc : Accumulator)
    (samples : List (Option ℚ)) :
    ((List.foldl onSample acc samples).extruded
        = acc.extruded
          + ((List.foldl onSample acc samples).highest_e_pos
              - acc.highest_e_pos)
      ∧ acc.highest_e_pos ≤ (List.foldl onSample acc samples).highest_e_pos) ∧
    (∀ e : ℚ, e ≠ 0 → acc.highest_e_pos < e →
      onSample acc (some e)
        = ⟨e, acc.extruded + (e - acc.highest_e_pos)⟩) ∧
    (∀ e : ℚ, e ≤ acc.highest_e_pos → onSample acc (some e) = acc) ∧
    onSample acc Option.none = acc := by
  refine ⟨foldl_onSample_telescopes samples acc, ?_, ?_, rfl⟩
  · intro e he hgt
    rw [onSample, if_pos ⟨he, hgt⟩]
  · intro e hle
    rw [onSample, if_neg]
    rintro ⟨-, hgt⟩
    exact absurd hle (not_le.mpr hgt)

theorem extruded_sums_positive_deltas_witness :
    (10 : ℚ) ≠ 0 ∧ (0 : ℚ) < 10 ∧
    onSample ⟨0, 0⟩ (some 10) = ⟨10, 0 + (10 - 0)⟩ :=
  ⟨by norm_num, by norm_num,
    (extruded_sums_positive_deltas ⟨0, 0⟩ []).2.1 10 (by norm_num) (by norm_num)⟩

/-- C2, the claim as stated, is false: after initialization at a negative
firmware position (here `-1`), a present sample of exactly `0.0` is
strictly greater than `highest_e_pos` yet changes neither field, where the
claim requires the delta `0 − (−1) = 1` to be added. -/
theorem extruded_claim_counterexample :
    (0 : ℚ) > (initAccumulator (-1)).highest_e_pos ∧
    List.foldl onSample (initAccumulator (-1)) [some 0] = initAccumulator (-1) ∧
    List.foldl onSample (initAccumulator (-1)) [some 0]
      ≠ ⟨0, (initAccumulator (-1)).extruded
            + (0 - (initAccumulator (-1)).highest_e_pos)⟩ := by
  refine ⟨by norm_num [initAccumulator], ?_, ?_⟩
  · simp [onSample, initAccumulator]
  · simp [onSample, initAccumulator]

/-! ### Claim C10 -/

/-- C10: a telemetry sample whose extruder position is exactly `0.0`
never changes `extruded` or `highest_e_pos`, regardless of the current
`highest_e_pos` — in particular even when `highest_e_pos` is negative, in
which case `0.0` exceeds the recorded maximum (`if epos and ...` is falsy
at `0.0`). -/
theorem zero_position_sample_ignored (acc : Accumulator) (position : List ℚ)
    (h : position.get? 3 = some 0) :
    handle_status_update acc position = .ok acc ∧
    onSample acc (some 0) = acc := by
  have honz : onSample acc (some 0) = acc := by
    rw [onSample, if_neg]
    rintro ⟨h0, -⟩
    exact h0 rfl
  obtain ⟨hlen, -⟩ := List.get?_eq_some.mp h
  refine ⟨?_, honz⟩
  rw [handle_status_update, eposition_from_status,
    if_pos (by omega : 0 < position.length), h]
  simp [Except.map, honz]

theorem zero_position_sample_ignored_witness :
    ([(0 : ℚ), 0, 0, 0].get? 3 = some 0) ∧
    handle_status_update ⟨-1, 5⟩ [0, 0, 0, 0] = .ok ⟨-1, 5⟩ :=
  ⟨rfl, (zero_position_sample_ignored ⟨-1, 5⟩ [0, 0, 0, 0] rfl).1⟩

/-! ### Claim C6 -/

/-- C6: `used_weight()` equals `π·(diameter/2)²·used_length·(density/1000)`
whenever both `diameter` and `density` are set, equals 0 when either is
unset, and is a pure function of `(diameter, density, used_length)`.
(When a set `diameter` or `density` is zero the source skips the formula
and returns 0, which coincides with the formula's value.) -/
theorem used_weight_spec (sp : Spool) :
    (∀ d dens : ℚ, sp.diameter = some d → sp.density = some dens →
      sp.used_weight = mathPi * (d / 2) ^ 2 * sp.used_length * (dens / 1000)) ∧
    (sp.diameter = Option.none ∨ sp.density = Option.none →
      sp.used_weight = 0) ∧
    (∀ t : Spool, t.diameter = sp.diameter → t.density = sp.density →
      t.used_length = sp.used_length → t.used_weight = sp.used_weight) := by
  refine ⟨?_, ?_, ?_⟩
  · intro d dens hd hdens
    simp only [Spool.used_weight, hd, hdens]
    by_cases hz : d ≠ 0 ∧ dens ≠ 0
    · rw [if_pos hz]
      ring
    · rw [if_neg hz]
      rcases not_and_or.mp hz with h | h
      · rw [not_not.mp h]
        ring
      · rw [not_not.mp h]
        ring
  · intro h
    rcases h with h | h
    · simp only [Spool.used_weight, h]
    · simp only [Spool.used_weight, h]
      cases sp.diameter <;> rfl
  · intro t h1 h2 h3
    simp only [Spool.used_weight, h1, h2, h3]

theorem used_weight_spec_witness :
    spoolEx.diameter = some 2 ∧ spoolEx.density = some 1 ∧
    spoolEx.used_weight = mathPi * (2 / 2) ^ 2 * 10 * (1 / 1000) := by
  refine ⟨rfl, rfl, ?_⟩
  have h := (used_weight_spec spoolEx).1 2 1 rfl rfl
  simpa [spoolEx, spoolDefault] using h

/-! ### Claim C9 -/

/-- C9 is violated by the source: the guard `len(position) > 0` does not
protect the read `position[3]`, so a status update whose toolhead position
vector has between one and three elements raises `IndexError` instead of
being ignored.  An absent or empty vector, and a vector with at least four
elements, behave as the claim says. -/
theorem eposition_short_vector_bug :
    eposition_from_status [0] = .error .indexError ∧
    eposition_from_status [1, 2, 3] = .error .indexError ∧
    eposition_from_status [] = .ok Option.none ∧
    eposition_from_status [1, 2, 3, 4] = .ok (some 4) :=
  ⟨rfl, rfl, rfl, rfl⟩

/-! ### Claim C8 -/

/-- A key for which `hasattr` is false is skipped by `update`'s loop. -/
theorem setAttr_no_attr (s : Spool) (k : String) (v : PyVal)
    (h : hasattrSpool k = false) : setAttr s k v = s := by
  simp only [hasattrSpool, spoolDataFields, spoolClassAttrs, isDunder,
    Bool.or_eq_false_iff] at h
  obtain ⟨⟨h1, h2⟩, h3⟩ := h
  simp at h1 h2
  rw [setAttr]
  simp [h1.1, h1.2.1, h1.2.2.1, h1.2.2.2.1, h1.2.2.2.2.1, h1.2.2.2.2.2.1,
    h1.2.2.2.2.2.2.1, h1.2.2.2.2.2.2.2.1, h1.2.2.2.2.2.2.2.2.1,
    h1.2.2.2.2.2.2.2.2.2.1, h1.2.2.2.2.2.2.2.2.2.2.1,
    h1.2.2.2.2.2.2.2.2.2.2.2.1, h1.2.2.2.2.2.2.2.2.2.2.2.2,
    spoolClassAttrs, isDunder, h2.1, h2.2.1, h2.2.2.1, h2.2.2.2.1, h2.2.2.2.2,
    h3]


/-- `setattr` on a key other than the given data field leaves that
field's value unchanged (one lemma per data attribute). -/
theorem setAttr_proj_name (s : Spool) (k : String) (v : PyVal)
    (h : "name" ≠ k) : (setAttr s k v).name = s.name := by
  simp [setAttr, apply_ite Spool.name, ite_self, Ne.symm h]

theorem setAttr_proj_color (s : Spool) (k : String) (v : PyVal)
    (h : "color" ≠ k) : (setAttr s k v).color = s.color := by
  simp [setAttr, apply_ite Spool.color, ite_self, Ne.symm h]

theorem setAttr_proj_vendor (s : Spool) (k : String) (v : PyVal)
    (h : "vendor" ≠ k) : (setAttr s k v).vendor = s.vendor := by
  simp [setAttr, apply_ite Spool.vendor, ite_self, Ne.symm h]

theorem setAttr_proj_material (s : Spool) (k : String) (v : PyVal)
    (h : "material" ≠ k) : (setAttr s k v).material = s.material := by
  simp [setAttr, apply_ite Spool.material, ite_self, Ne.symm h]

theorem setAttr_proj_density (s : Spool) (k : String) (v : PyVal)
    (h : "density" ≠ k) : (setAttr s k v).density = s.density := by
  simp [setAttr, apply_ite Spool.density, ite_self, Ne.symm h]

theorem setAttr_proj_diameter (s : Spool) (k : String) (v : PyVal)
    (h : "diameter" ≠ k) : (setAttr s k v).diameter = s.diameter := by
  simp [setAttr, apply_ite Spool.diameter, ite_self, Ne.symm h]

theorem setAttr_proj_total_weight (s : Spool) (k : String) (v : PyVal)
    (h : "total_weight" ≠ k) : (setAttr s k v).total_weight = s.total_weight := by
  simp [setAttr, apply_ite Spool.total_weight, ite_self, Ne.symm h]

theorem setAttr_proj_used_length (s : Spool) (k : String) (v : PyVal)
    (h : "used_length" ≠ k) : (setAttr s k v).used_length = s.used_length := by
  simp [setAttr, apply_ite Spool.used_length, ite_self, Ne.symm h]

theorem setAttr_proj_spool_weight (s : Spool) (k : String) (v : PyVal)
    (h : "spool_weight" ≠ k) : (setAttr s k v).spool_weight = s.spool_weight := by
  simp [setAttr, apply_ite Spool.spool_weight, ite_self, Ne.symm h]

theorem setAttr_proj_first_used (s : Spool) (k : String) (v : PyVal)
    (h : "first_used" ≠ k) : (setAttr s k v).first_used = s.first_used := by
  simp [setAttr, apply_ite Spool.first_used, ite_self, Ne.symm h]

theorem setAttr_proj_last_used (s : Spool) (k : String) (v : PyVal)
    (h : "last_used" ≠ k) : (setAttr s k v).last_used = s.last_used := by
  simp [setAttr, apply_ite Spool.last_used, ite_self, Ne.symm h]

theorem setAttr_proj_cost (s : Spool) (k : String) (v : PyVal)
    (h : "cost" ≠ k) : (setAttr s k v).cost = s.cost := by
  simp [setAttr, apply_ite Spool.cost, ite_self, Ne.symm h]

theorem setAttr_proj_comment (s : Spool) (k : String) (v : PyVal)
    (h : "comment" ≠ k) : (setAttr s k v).comment = s.comment := by
  simp [setAttr, apply_ite Spool.comment, ite_self, Ne.symm h]

/-- `setattr` on key `k` leaves every data attribute other than `k`
unchanged. -/
theorem fieldGet_setAttr_ne (s : Spool) (k k' : String) (v : PyVal)
    (hk : k' ∈ spoolDataFields) (hne : k' ≠ k) :
    fieldGet (setAttr s k v) k' = fieldGet s k' := by
  fin_cases hk <;>
    simp_all [fieldGet, setAttr_proj_name, setAttr_proj_color,
      setAttr_proj_vendor, setAttr_proj_material, setAttr_proj_density,
      setAttr_proj_diameter, setAttr_proj_total_weight,
      setAttr_proj_used_length, setAttr_proj_spool_weight,
      setAttr_proj_first_used, setAttr_proj_last_used, setAttr_proj_cost,
      setAttr_proj_comment]

/-- C8 (amended): every key for which the object has no attribute at all —
in particular any key outside the thirteen data fields, the method names
(`update`, `used_weight`, `serialize`, `validate`), the class attribute
`_required_attributes`, and Python's built-in dunder attributes — is
ignored by `create`/`update`, and every data field not named in the
mapping keeps its previous value (at creation: its `__init__` default).
(As stated, the claim fails for keys naming non-field attributes such as
the method `update`: `hasattr` is true for them, so they are copied into
the instance dictionary and alter `serialize`'s output.) -/
theorem spool_update_ignores_unknown_keys (s : Spool)
    (data : List (String × PyVal)) :
    ((∀ kv ∈ data, hasattrSpool kv.1 = false) → Spool.update s data = s) ∧
    (∀ k, k ∈ spoolDataFields → (∀ v : PyVal, (k, v) ∉ data) →
      fieldGet (Spool.update s data) k = fieldGet s k) := by
  induction data generalizing s with
  | nil => exact ⟨fun _ => rfl, fun _ _ _ => rfl⟩
  | cons kv rest ih =>
      obtain ⟨k0, v0⟩ := kv
      have hstep : Spool.update s ((k0, v0) :: rest)
          = Spool.update (setAttr s k0 v0) rest := rfl
      constructor
      · intro hall
        rw [hstep, setAttr_no_attr _ _ _ (hall (k0, v0) (List.mem_cons_self _ _))]
        exact (ih s).1 (fun kv' h' => hall kv' (List.mem_cons_of_mem _ h'))
      · intro k hk hnot
        have hne : k ≠ k0 := by
          intro he
          exact hnot v0 (by rw [he]; exact List.mem_cons_self _ _)
        rw [hstep]
        calc fieldGet (Spool.update (setAttr s k0 v0) rest) k
            = fieldGet (setAttr s k0 v0) k :=
              (ih _).2 k hk (fun v hv => hnot v (List.mem_cons_of_mem _ hv))
          _ = fieldGet s k := fieldGet_setAttr_ne _ _ _ _ hk hne

theorem spool_update_ignores_unknown_keys_witness :
    (∀ kv ∈ [("zzz", PyVal.num 1)], hasattrSpool kv.1 = false) ∧
    Spool.update spoolEx [("zzz", PyVal.num 1)] = spoolEx :=
  ⟨by decide, (spool_update_ignores_unknown_keys spoolEx _).1 (by decide)⟩

/-- C8 as stated is false: `"update"` is not one of the Spool's data
fields, yet `Spool.update` does not ignore it — `hasattr(spool, "update")`
is true (it names the bound method), so `setattr` stores the value in the
instance dictionary, which changes the observable output of `serialize`. -/
theorem spool_update_unknown_key_counterexample :
    "update" ∉ spoolDataFields ∧
    Spool.update spoolDefault [("update", PyVal.num 1)] ≠ spoolDefault ∧
    Spool.serialize (Spool.update spoolDefault [("update", PyVal.num 1)])
      ≠ Spool.serialize spoolDefault := by
  refine ⟨by decide, by decide, by decide⟩

/-! ### Claim C4 -/

/-- Valid creation data carrying an explicit density. -/
def dataC4 : SerRec :=
  [("name", PyVal.str "PLA Red"), ("material", PyVal.str "PLA"),
   ("density", PyVal.num 1), ("diameter", PyVal.num 2),
   ("total_weight", PyVal.num 1000)]

/-- The store after `add_spool(dataC4)` on an empty store. -/
def dbC4 : DB :=
  match add_spool [] [] dataC4 with
  | .ok (_, db) => db
  | .error _ => []

/-- C4 is violated by the source: `Spool.__init__` defines no `active`
attribute (and `update` drops an `active` key, since `hasattr` is false
for it), so the record persisted by `add_spool` has no `'active'` key;
`find_all_spools(show_inactive=False)` then raises `KeyError('active')`
on the very record `add_spool` just produced, instead of filtering.  With
`show_inactive=True` the `or` short-circuits and the listing succeeds. -/
theorem find_all_spools_active_keyerror :
    (add_spool [] [] dataC4).isOk = true ∧
    dget ((dget dbC4 "000000").getD []) "active" = Option.none ∧
    dget ((dget dbC4 "000000").getD []) "name" = some (PyVal.str "PLA Red") ∧
    find_all_spools dbC4 false = .error (.keyError "active") ∧
    (find_all_spools dbC4 true).isOk = true := by
  refine ⟨rfl, rfl, rfl, rfl, rfl⟩

/-! ### Claim C5 -/

/-- Creation data naming a material but no density. -/
def dataC5 : SerRec :=
  [("name", PyVal.str "X"), ("material", PyVal.str "PETG"),
   ("diameter", PyVal.num 2), ("total_weight", PyVal.num 1000)]

/-- C5 is violated by the source: with a material name given but absent
from the material table, `self.materials.get(material)` is `None`, so the
chained `.get('density')` raises `AttributeError` — an uncontrolled
failure — before the controlled `ValidationError` raise below it can run.
The controlled `ValidationError` path is reached only when the material
name itself is falsy (second conjunct), and the lookup succeeds when the
material is present in the table (third conjunct). -/
theorem add_spool_unknown_material_attributeerror :
    add_spool [] [] dataC5 = .error .attributeError ∧
    add_spool [] []
        [("name", PyVal.str "X"), ("diameter", PyVal.num 2),
         ("total_weight", PyVal.num 1000)]
      = .error (.serverError
          "Density not provided and none found for material") ∧
    (add_spool [("PETG", [("density", PyVal.num 2)])] [] dataC5).isOk
      = true := by
  refine ⟨rfl, rfl, rfl⟩

/-! ### Claim C7 -/

/-- C7 (amended): every id assigned by `add_spool` is the zero-padded
(width at least 6) uppercase-hex representation of `numeric value of the
lexicographically-last existing key, plus one` (0 on an empty store, so
the first id is `"000000"`); its numeric value strictly exceeds that of
every existing key, so assigned ids are strictly increasing in numeric
value; and the id is *exactly* 6 hex digits whenever its numeric value is
below `16^6`.  (As stated — "always 6 hex digits" — the claim fails once
the counter passes `16^6 − 1`, reachable through add/delete cycles: the
format spec `06X` pads but never truncates.) -/
theorem add_spool_id_spec (materials : List (String × SerRec)) (db : DB)
    (data : SerRec) (id : String) (db' : DB) (last : String)
    (hok : add_spool materials db data = .ok (id, db'))
    (hlast : (db.map Prod.fst).getLast? = some last)
    (hmax : ∀ k ∈ db.map Prod.fst, hexVal k ≤ hexVal last) :
    id = formatId (hexVal last + 1) ∧
    hexVal id = hexVal last + 1 ∧
    (∀ k ∈ db.map Prod.fst, hexVal k < hexVal id) ∧
    (hexVal last + 1 < 16 ^ 6 →
      id.length = 6 ∧ id.data.all isHexUpperChar = true) ∧
    assignId [] = "000000" := by
  have hid : id = assignId (db.map Prod.fst) := by
    rw [add_spool] at hok
    split at hok
    · exact absurd hok (by simp)
    · split at hok
      · exact absurd hok (by simp)
      · simp only [] at hok
        split at hok
        · exact absurd hok (by simp)
        · simp only [Except.ok.injEq, Prod.mk.injEq] at hok
          exact hok.1.symm
  have hform : id = formatId (hexVal last + 1) := by
    rw [hid, assignId, next_spool_id, hlast]
  refine ⟨hform, ?_, ?_, ?_, by decide⟩
  · rw [hform, hexVal_formatId]
  · intro k hk
    rw [hform, hexVal_formatId]
    exact Nat.lt_succ_of_le (hmax k hk)
  · intro hlt
    rw [hform]
    exact ⟨formatId_length _ hlt, formatId_chars _⟩

theorem add_spool_id_spec_witness :
    add_spool [] [("000000", dataC4)] dataC4
        = .ok ("000001",
            [("000000", dataC4), ("000001", (spoolFromData dataC4).serialize)]) ∧
    ([("000000", dataC4)].map Prod.fst).getLast? = some "000000" ∧
    hexVal "000001" = hexVal "000000" + 1 ∧
    "000001".length = 6 := by
  have h := add_spool_id_spec [] [("000000", dataC4)] dataC4 "000001"
    [("000000", dataC4), ("000001", (spoolFromData dataC4).serialize)]
    "000000" rfl rfl (by decide)
  exact ⟨rfl, rfl, h.2.1, (h.2.2.2.1 (by decide)).1⟩

/-- C7 as stated is false at the boundary: on a store whose
lexicographically-last key is `"FFFFFF"`, `add_spool` assigns the id
`"1000000"` — seven characters, not six (`f"{0x1000000:06X}"` does not
truncate). -/
theorem add_spool_id_counterexample :
    (add_spool [] [("FFFFFF", dataC4)] dataC4).toOption.map Prod.fst
      = some "1000000" ∧
    "1000000".length = 7 ∧
    hexVal "FFFFFF" + 1 = 16 ^ 6 := by
  refine ⟨rfl, rfl, by decide⟩

/-! ### The accounting transaction (claims C1 and C3) -/

theorem set_shadows_self (t : Spool) (h : t.shadows = []) :
    ({ t with shadows := ([] : List (String × PyVal)) }) = t := by
  cases t
  simp_all

/-- Behaviour of `update_spool` when the id resolves to a stored
serialized record and the merged record is valid: the merge is a full
overwrite, the write either persists it or raises. -/
theorem update_spool_found (writeOk : Bool) (db : DB) (sid : String)
    (sp t : Spool) (hdb : dget db sid = some sp.serialize)
    (hsh : sp.shadows = []) (hts : t.shadows = [])
    (hval : t.validate = []) :
    update_spool writeOk db sid t.serialize
      = if writeOk then (.ok (), dset db sid t.serialize)
        else (.error .storeIOError, db) := by
  have hfind : find_spool db sid = some sp := by
    rw [find_spool, hdb, Option.map_some']
    rw [spoolFromData_serialize sp hsh]
  have hmerge : sp.update t.serialize = t := by
    rw [update_serialize sp t hts, hsh]
    exact set_shadows_self t hts
  simp only [update_spool, hfind, hmerge, hval, ne_eq, not_true_eq_false,
    not_false_eq_true, if_false, if_true]

/-- Full characterization of the accounting transaction on the path with
an active spool that resolves to a stored valid record and a positive
accumulated length: on a successful write it persists the accounted
record, appends the `filament_used` notification and resets the
accumulator; on a failed write it propagates the store error and leaves
the store, the notification trace and the accumulator untouched. -/
theorem track_happy (st : MState) (sid : String) (sp : Spool) (now : ℚ)
    (writeOk : Bool)
    (hact : st.active = some sid)
    (hdb : dget st.db sid = some sp.serialize)
    (hsh : sp.shadows = []) (hval : sp.validate = [])
    (hpos : 0 < st.acc.extruded) :
    track_filament_usage now writeOk st
      = if writeOk then
          (.ok (),
           { st with db := dset st.db sid (codeAccounted sp st.acc.extruded now).serialize,
                     events := st.events ++ [filamentUsedEvent sid (usedWeightDelta sp st.acc.extruded) (codeCost sp st.acc.extruded)],
                     acc := { st.acc with extruded := 0 } })
        else (.error .storeIOError, st) := by
  have hfind : find_spool st.db sid = some sp := by
    rw [find_spool, hdb, Option.map_some']
    rw [spoolFromData_serialize sp hsh]
  have hts : (codeAccounted sp st.acc.extruded now).shadows = [] := hsh
  have hval2 : (codeAccounted sp st.acc.extruded now).validate = [] := hval
  rw [track_filament_usage, hact]
  simp only [Option.some_bind, hfind, if_pos hpos]
  rw [update_spool_found writeOk st.db sid sp _ hdb hsh hts hval2]
  cases writeOk
  · simp
    rw [← hact]
  · simp

/-! ### Claim C1 -/

/-- The cost delta exactly as the claim states it: `usedWeightDelta /
total_weight * cost` when `cost` and `total_weight` are both set and
truthy, else 0. -/
def usedCostDelta (sp : Spool) (L : ℚ) : ℚ :=
  if truthyOptQ sp.cost = true ∧ truthyOptQ sp.total_weight = true then
    usedWeightDelta sp L / sp.total_weight.getD 0 * sp.cost.getD 0
  else 0

/-- The source's additional truthiness guard on the weight delta changes
nothing: a zero delta makes the quotient-product zero anyway. -/
theorem codeCost_eq_usedCostDelta (sp : Spool) (L : ℚ) :
    codeCost sp L = usedCostDelta sp L := by
  rw [codeCost, usedCostDelta]
  by_cases h : usedWeightDelta sp L = 0
  · rw [h]
    simp
  · simp [h]

/-- C1 (amended): with an active spool id resolving to a stored (valid,
shadow-free) record and a positive drained length `L`, the transaction
adds `L` to `used_length`, always stamps `last_used := now`, stamps
`first_used := now` exactly when the previous value was falsy (`None` —
as the claim says — but also the value `0.0`, since the source tests
`if not spool.first_used`), persists the updated record at the same id,
returns normally, and emits a `filament_used` notification carrying the
spool id, the used-weight delta, and the claim's cost delta. -/
theorem track_filament_usage_spec (st : MState) (sid : String) (sp : Spool)
    (now : ℚ)
    (hact : st.active = some sid)
    (hdb : dget st.db sid = some sp.serialize)
    (hsh : sp.shadows = [])
    (hval : sp.validate = [])
    (hpos : 0 < st.acc.extruded) :
    (track_filament_usage now true st).1 = .ok () ∧
    dget (track_filament_usage now true st).2.db sid
      = some (codeAccounted sp st.acc.extruded now).serialize ∧
    (codeAccounted sp st.acc.extruded now).used_length
      = sp.used_length + st.acc.extruded ∧
    (codeAccounted sp st.acc.extruded now).last_used = some now ∧
    (sp.first_used = Option.none →
      (codeAccounted sp st.acc.extruded now).first_used = some now) ∧
    (∀ t : ℚ, sp.first_used = some t → t ≠ 0 →
      (codeAccounted sp st.acc.extruded now).first_used = some t) ∧
    (track_filament_usage now true st).2.events
      = st.events ++ [filamentUsedEvent sid (usedWeightDelta sp st.acc.extruded)
          (usedCostDelta sp st.acc.extruded)] := by
  have h := track_happy st sid sp now true hact hdb hsh hval hpos
  rw [if_pos rfl] at h
  rw [h]
  refine ⟨rfl, dget_dset_self _ _ _, rfl, rfl, ?_, ?_, ?_⟩
  · intro hfu
    simp [codeAccounted, truthyOptQ, hfu]
  · intro t hfu ht
    simp [codeAccounted, truthyOptQ, hfu, ht]
  · rw [codeCost_eq_usedCostDelta]

/-- A valid spool as stored by `add_spool`, used as concrete input. -/
def spoolW : Spool :=
  { spoolDefault with name := some "PLA", material := some "PLA", density := some 1, diameter := some 2, total_weight := some 1000, cost := some 20 }

/-- A registry state with `spoolW` stored and active and 5 mm drained. -/
def stW : MState :=
  { db := [("000000", spoolW.serialize)], active := some "000000",
    acc := { highest_e_pos := 10, extruded := 5 }, events := [] }

theorem track_filament_usage_spec_witness :
    stW.active = some "000000" ∧ (0 : ℚ) < stW.acc.extruded ∧
    spoolW.validate = [] ∧
    (track_filament_usage 42 true stW).1 = .ok () :=
  ⟨rfl, by norm_num [stW], rfl,
    (track_filament_usage_spec stW "000000" spoolW 42 rfl rfl rfl rfl
      (by norm_num [stW])).1⟩

/-- A stored record whose `first_used` is the falsy timestamp `0.0`. -/
def spoolZ : Spool := { spoolW with first_used := some 0 }

/-- A registry state with `spoolZ` stored and active and 5 mm drained. -/
def stZ : MState :=
  { db := [("000000", spoolZ.serialize)], active := some "000000",
    acc := { highest_e_pos := 10, extruded := 5 }, events := [] }

/-- C1 as stated is false in one corner: a record whose `first_used` is
*set* to the falsy value `0.0` is nevertheless re-stamped — the source
tests `if not spool.first_used`, which is true for `0.0`, so the
persisted record carries `first_used = now` (here 42) instead of the
previous value 0. -/
theorem track_first_used_counterexample :
    spoolZ.first_used = some 0 ∧
    dget ((dget (track_filament_usage 42 true stZ).2.db "000000").getD [])
        "first_used" = some (PyVal.num 42) ∧
    some (PyVal.num 42) ≠ some (PyVal.num 0) := by
  refine ⟨rfl, rfl, by decide⟩

/-! ### Claim C3 -/

/-- C3 (amended): the accumulator is read at the start of the transaction
but reset to 0 only *after* the record has been successfully persisted
and the notification emitted (line 225 of the source).  After a
successful transaction `extruded` is 0; when the persistence write fails,
the error propagates and `extruded` keeps its accumulated value, with the
store and the notification trace untouched. -/
theorem track_drain_after_persist (st : MState) (sid : String) (sp : Spool)
    (now : ℚ)
    (hact : st.active = some sid)
    (hdb : dget st.db sid = some sp.serialize)
    (hsh : sp.shadows = [])
    (hval : sp.validate = [])
    (hpos : 0 < st.acc.extruded) :
    (track_filament_usage now true st).2.acc.extruded = 0 ∧
    (track_filament_usage now false st).1 = .error .storeIOError ∧
    (track_filament_usage now false st).2.acc.extruded = st.acc.extruded ∧
    (track_filament_usage now false st).2.db = st.db ∧
    (track_filament_usage now false st).2.events = st.events := by
  have ht := track_happy st sid sp now true hact hdb hsh hval hpos
  have hf := track_happy st sid sp now false hact hdb hsh hval hpos
  rw [if_pos rfl] at ht
  rw [if_neg (by simp)] at hf
  rw [ht, hf]
  exact ⟨rfl, rfl, rfl, rfl, rfl⟩

theorem track_drain_after_persist_witness :
    stW.active = some "000000" ∧ (0 : ℚ) < stW.acc.extruded ∧
    (track_filament_usage 42 true stW).2.acc.extruded = 0 :=
  ⟨rfl, by norm_num [stW],
    (track_drain_after_persist stW "000000" spoolW 42 rfl rfl rfl rfl
      (by norm_num [stW])).1⟩

/-- C3 as stated is false: when the persistence write fails, the
accumulator has *not* been reset — the transaction propagates the store
error and `extruded` still holds the accumulated 5 mm, because the reset
happens after the persist, not atomically at the drain. -/
theorem track_drain_counterexample :
    (track_filament_usage 42 false stW).1 = .error .storeIOError ∧
    (track_filament_usage 42 false stW).2.acc.extruded = 5 ∧
    (5 : ℚ) ≠ 0 := by
  refine ⟨rfl, rfl, by norm_num⟩
